import Mathlib

/-!
Verification development for the hybrid page-text extraction pipeline of
src/abawd_llm/src/extract_pages.py (function page_texts and its helper
_df_to_text).

The embedding is shallow: every external library call that page_texts makes
(Camelot lattice/stream detection, pdfplumber table extraction, pdf2image
rendering, pytesseract TSV OCR) is an input of the model, recorded in a
World structure.  A field of World is an Except value when the underlying
Python call can raise (the code wraps some of them in try/except), and the
model propagates or swallows errors exactly where the source does.  The
per-page embedded text layer and the hypothetical whole-image OCR text are
also fields of World; the source never reads them, which is itself one of
the facts proved below.

Pages are 1-based in Camelot and pdfplumber reports, matching the source.
The model keeps the exact accumulator discipline of the source: a growing
list named out, padded with empty strings, with in-place string appends.
-/

namespace ExtractPages

/-- A cell grid: the DataFrame rows of one detected table. -/
abbrev Grid := List (List String)

/-- One table reported by Camelot: its cell grid df, its 1-based page, and
the total page count n that Camelot attaches to every table. -/
structure CamelotTable where
  df : Grid
  page : Nat
  n : Nat
deriving Repr, DecidableEq

/-- One word row of the pytesseract TSV DataFrame: the structural key
fields block_num, par_num, line_num and the recognised text token. -/
structure WordRec where
  block : Nat
  par : Nat
  line : Nat
  text : String
deriving Repr, DecidableEq

/-- Whitespace set of the Python str.strip default (space, tab, newline,
carriage return, vertical tab, form feed). -/
def isPySpace (c : Char) : Bool :=
  c == ' ' || c == '\t' || c == '\n' || c == '\r' || c == '\x0b' || c == '\x0c'

/-- Python str.strip: drop leading and trailing whitespace. -/
def pyStrip (s : String) : String :=
  String.mk (((s.data.dropWhile isPySpace).reverse.dropWhile isPySpace).reverse)

/-- Embedding of _df_to_text (extract_pages.py lines 56-63): per DataFrame
row, keep the stripped non-empty cells, join them with single spaces, then
join the non-empty rows with newlines. -/
def _df_to_text (df : Grid) : String :=
  String.intercalate "\n" (df.filterMap (fun row =>
    let cells := (row.map pyStrip).filter (fun s => !(s == ""))
    if cells = [] then none else some (String.intercalate " " cells)))

/-- Outcomes of every external library call page_texts performs, plus the
document data (text layer, whole-image OCR text) that the source never
reads.  tess i is the TSV DataFrame pytesseract would return for the
0-based rendered image i; convert is the number of images pdf2image
returns; plumber gives, per 1-based page, the raw tables pdfplumber
extracts. -/
structure World where
  camelotLattice : Except Unit (List CamelotTable)
  camelotStream : Except Unit (List CamelotTable)
  plumber : Except Unit (List (List Grid))
  convert : Except Unit Nat
  tess : Nat → Except Unit (List WordRec)
  textLayer : Nat → String
  wholeImageOcr : Nat → String

/-- Replace the Camelot stream-flavor outcome of a world. -/
def setStream (w : World) (s : Except Unit (List CamelotTable)) : World :=
  ⟨w.camelotLattice, s, w.plumber, w.convert, w.tess, w.textLayer, w.wholeImageOcr⟩

/-- Replace the embedded text layer of a world. -/
def setTextLayer (w : World) (f : Nat → String) : World :=
  ⟨w.camelotLattice, w.camelotStream, w.plumber, w.convert, w.tess, f, w.wholeImageOcr⟩

/-- Replace the whole-image OCR text of a world. -/
def setWholeOcr (w : World) (f : Nat → String) : World :=
  ⟨w.camelotLattice, w.camelotStream, w.plumber, w.convert, w.tess, w.textLayer, f⟩

/-- Embedding of the Python idiom: while len(out) < p: out.append("").  -/
def padTo (out : List String) (p : Nat) : List String :=
  out ++ List.replicate (p - out.length) ""

/-- Embedding of: out[i] += ("\n" if out[i] else "") + txt. -/
def appendAt (out : List String) (i : Nat) (txt : String) : List String :=
  let old := out.getD i ""
  out.set i (old ++ (if old = "" then "" else "\n") ++ txt)

/-- Pass 1 table source (lines 80-99): read lattice tables; if that raises
the whole pass is abandoned (the stream flavor is NOT consulted); if it
returns zero tables, read stream tables, a raise there also abandoning the
pass.  Note the stream retry is document-level, not per page. -/
def pass1Tables (w : World) : List CamelotTable :=
  match w.camelotLattice with
  | .error _ => []
  | .ok ts =>
    if ts = [] then
      match w.camelotStream with
      | .error _ => []
      | .ok ss => ss
    else ts

/-- Loop body of pass 1 (lines 88-96): remember the first reported total
page count, pad the accumulator up to the 1-based page of the table, and
append the collapsed table text to that page entry. -/
def addTable (st : List String × Option Nat) (t : CamelotTable) : List String × Option Nat :=
  (appendAt (padTo st.1 t.page) (t.page - 1) (_df_to_text t.df), some (st.2.getD t.n))

/-- Pass 1 accumulator: fold the Camelot tables over the empty state. -/
def pass1 (ts : List CamelotTable) : List String × Option Nat :=
  ts.foldl addTable ([], none)

/-- Inner loop of pass 2 for one page (lines 107-114): skip the page when
pdfplumber found no tables there; otherwise pad the accumulator up to this
page and append every found table text to the page entry. -/
def plumberStep (out : List String) (idx1 : Nat) (tbls : List Grid) : List String :=
  if tbls = [] then out
  else tbls.foldl (fun o g => appendAt o (idx1 - 1) (_df_to_text g)) (padTo out idx1)

/-- Pass 2 page loop, pages enumerated from 1 as in the source. -/
def plumberLoop : List String → List (List Grid) → Nat → List String
  | out, [], _ => out
  | out, p :: rest, idx1 => plumberLoop (plumberStep out idx1 p) rest (idx1 + 1)

/-- Pass 2 (lines 101-116): when pdfplumber opens the file, take the page
count if still unknown and run the page loop; when it raises, the whole
pass is swallowed and the state is unchanged. -/
def pass2 (pl : Except Unit (List (List Grid))) (st : List String × Option Nat) :
    List String × Option Nat :=
  match pl with
  | .error _ => st
  | .ok pages => (plumberLoop st.1 pages 1, some (st.2.getD pages.length))

/-- Indices of accumulator entries that hold the empty string: the Python
list comprehension [i for i, txt in enumerate(out) if not txt]. -/
def emptyIdx (out : List String) : List Nat :=
  (List.range out.length).filter (fun i => decide (out.getD i "" = ""))

/-- Structural key of a TSV word row, the pandas groupby key
(block_num, par_num, line_num). -/
def WordRec.key (r : WordRec) : Nat × Nat × Nat := (r.block, r.par, r.line)

/-- Lexicographic order on structural keys; pandas groupby iterates group
keys in this sorted order. -/
def keyLe (a b : Nat × Nat × Nat) : Bool :=
  if a.1 = b.1 then
    (if a.2.1 = b.2.1 then decide (a.2.2 ≤ b.2.2) else decide (a.2.1 < b.2.1))
  else decide (a.1 < b.1)

/-- Insertion step of the key sort. -/
def insertKey (k : Nat × Nat × Nat) : List (Nat × Nat × Nat) → List (Nat × Nat × Nat)
  | [] => [k]
  | x :: xs => if keyLe k x then k :: x :: xs else x :: insertKey k xs

/-- Insertion sort of structural keys. -/
def sortKeys : List (Nat × Nat × Nat) → List (Nat × Nat × Nat)
  | [] => []
  | [x] => [x]
  | x :: y :: xs => insertKey x (sortKeys (y :: xs))

/-- Collapse adjacent duplicates of a sorted key list, leaving the set of
distinct group keys in sorted order. -/
def dedupAdjacent : List (Nat × Nat × Nat) → List (Nat × Nat × Nat)
  | [] => []
  | [x] => [x]
  | x :: y :: xs =>
    if x = y then dedupAdjacent (y :: xs) else x :: dedupAdjacent (y :: xs)

/-- Distinct structural keys of a TSV, in the sorted order pandas groupby
uses. -/
def sortedKeys (d : List WordRec) : List (Nat × Nat × Nat) :=
  dedupAdjacent (sortKeys (d.map WordRec.key))

/-- All stripped, non-empty tokens of the group with key k, in their
original TSV order (pandas preserves in-group order). -/
def groupTokens (d : List WordRec) (k : Nat × Nat × Nat) : List String :=
  ((d.filter (fun r => r.key == k)).map (fun r => pyStrip r.text)).filter
    (fun s => !(s == ""))

/-- Row reconstruction of pass 3 (lines 141-146): per structural group,
space-join the stripped non-empty tokens and keep the row when the join is
non-empty. -/
def ocrRows (d : List WordRec) : List String :=
  (sortedKeys d).filterMap (fun k =>
    let txt := String.intercalate " " (groupTokens d k)
    if txt = "" then none else some txt)

/-- Line 147: out[i] = "\n".join(rows). -/
def pageFromTsv (d : List WordRec) : String :=
  String.intercalate "\n" (ocrRows d)

/-- Image loop of pass 3 (lines 133-147): pages whose index is not in the
precomputed empty list are skipped; pytesseract raising propagates (no
try/except around pass 3); an empty TSV leaves the entry untouched; else
the entry is overwritten with the reconstructed rows.  The returned list
of indices logs which pages were OCRed. -/
def ocrLoop (tess : Nat → Except Unit (List WordRec)) (empties : List Nat) :
    List Nat → List String → List Nat → Except Unit (List String × List Nat)
  | [], out, log => .ok (out, log)
  | i :: rest, out, log =>
    if i ∈ empties then
      match tess i with
      | .error e => .error e
      | .ok tsv =>
        if tsv = [] then ocrLoop tess empties rest out (log ++ [i])
        else ocrLoop tess empties rest (out.set i (pageFromTsv tsv)) (log ++ [i])
    else ocrLoop tess empties rest out log

/-- Result of a run: the returned list plus instrumentation (which pages
were OCRed, whether the raster stage was entered at all). -/
structure RunResult where
  out : List String
  ocrPages : List Nat
  rasterAttempted : Bool
deriving Repr, DecidableEq

/-- Pass 3 and final padding (lines 119-153): the raster stage runs only
when the accumulator has at least one empty entry; pdf2image raising
propagates; the accumulator is padded to the image count, the image loop
runs over all image indices, and finally the list is padded to the page
count (which is taken from the image count when still unknown). -/
def pass3run (conv : Except Unit Nat) (tess : Nat → Except Unit (List WordRec))
    (out : List String) (np : Nat) : Except Unit RunResult :=
  if emptyIdx out = [] then .ok ⟨padTo out np, [], false⟩
  else
    match conv with
    | .error e => .error e
    | .ok m =>
      match ocrLoop tess (emptyIdx out) (List.range m) (padTo out m) [] with
      | .error e => .error e
      | .ok st => .ok ⟨padTo st.1 (if np = 0 then m else np), st.2, true⟩

/-- Accumulator state right after the two vector passes. -/
def vectorState (w : World) : List String × Option Nat :=
  pass2 w.plumber (pass1 (pass1Tables w))

/-- Accumulator contents right after the two vector passes. -/
def vectorOut (w : World) : List String :=
  (vectorState w).1

/-- Instrumented page_texts: the full pipeline of extract_pages.py lines
70-153. -/
def page_textsRun (w : World) : Except Unit RunResult :=
  pass3run w.convert w.tess (vectorState w).1 ((vectorState w).2.getD 0)

/-- page_texts itself: the list the caller receives (or the propagated
exception). -/
def page_texts (w : World) : Except Unit (List String) :=
  (page_textsRun w).map RunResult.out

/-! Concrete documents, given by the outcomes of the library calls on them. -/

/-- A 1-page document with no tables anywhere and a non-empty embedded text
layer on its only page. -/
def docTextOnly : World :=
  ⟨.ok [], .ok [], .ok [[]], .ok 1, fun _ => .ok [], fun _ => "Hello world", fun _ => ""⟩

/-- Scenario B of the spec: a 1-page scanned document, no vector structure,
whose OCR TSV holds two structural groups reading Jones County and Smith
Reservation. -/
def docScenarioB : World :=
  ⟨.ok [], .ok [], .ok [[]], .ok 1,
    fun _ => .ok [⟨1, 1, 1, "Jones"⟩, ⟨1, 1, 1, "County"⟩,
                  ⟨2, 1, 1, "Smith"⟩, ⟨2, 1, 1, "Reservation"⟩],
    fun _ => "", fun _ => ""⟩

/-- The ruled 2 by 2 table of Scenario A. -/
def gridA : Grid := [["A1", "B1"], ["A2", "B2"]]

/-- Scenario A where pdfplumber also detects the same ruled table that
Camelot already found on page 1. -/
def docRuledBoth : World :=
  ⟨.ok [⟨gridA, 1, 1⟩], .ok [], .ok [[gridA]], .ok 1, fun _ => .ok [],
    fun _ => "", fun _ => ""⟩

/-- Scenario A where pdfplumber detects nothing on the page Camelot already
populated. -/
def docRuledCamelotOnly : World :=
  ⟨.ok [⟨gridA, 1, 1⟩], .ok [], .ok [[]], .ok 1, fun _ => .ok [],
    fun _ => "", fun _ => ""⟩

/-- An input that cannot be opened as a document at all: every library call
on it fails. -/
def docUnopenable : World :=
  ⟨.error (), .error (), .error (), .error (), fun _ => .error (),
    fun _ => "", fun _ => ""⟩

/-- A second unopenable input (the vector libraries fail; the others are
never reached). -/
def docUnopenable2 : World :=
  ⟨.error (), .ok [], .error (), .error (), fun _ => .error (),
    fun _ => "", fun _ => "x"⟩

/-- An openable 2-page document with a Camelot table on page 2 only, whose
rasterization (pdf2image) fails when page 1 is OCRed. -/
def docRenderFails : World :=
  ⟨.ok [⟨[["T2"]], 2, 2⟩], .ok [], .ok [[], []], .error (),
    fun _ => .error (), fun _ => "", fun _ => ""⟩

/-- An openable 2-page document with a Camelot table on page 2 only, whose
raster pass succeeds and OCRs nothing on page 1. -/
def docRenderOk : World :=
  ⟨.ok [⟨[["T2"]], 2, 2⟩], .ok [], .ok [[], []], .ok 2, fun _ => .ok [],
    fun _ => "", fun _ => ""⟩

/-- A 2-page document with a Camelot table on page 2 only, where OCR of
page 1 recognises the single one-character token X. -/
def docShortRow : World :=
  ⟨.ok [⟨[["T2"]], 2, 2⟩], .ok [], .ok [[], []], .ok 2,
    fun _ => .ok [⟨1, 1, 1, "X"⟩], fun _ => "", fun _ => ""⟩

/-- A 2-page document with a Camelot table on page 2 only, where OCR of
page 1 yields one whitespace-only token, while a whole-image OCR pass over
page 1 would read HELLO. -/
def docNoisePage : World :=
  ⟨.ok [⟨[["T2"]], 2, 2⟩], .ok [], .ok [[], []], .ok 2,
    fun _ => .ok [⟨1, 1, 1, " "⟩], fun _ => "",
    fun i => if i = 0 then "HELLO" else ""⟩

/-- A 2-page document where the lattice flavor finds a table on page 1 only
and the stream flavor would find a table on page 2. -/
def docLatticePage1 : World :=
  ⟨.ok [⟨[["L1"]], 1, 2⟩], .ok [⟨[["S2"]], 2, 2⟩], .ok [[], []], .ok 0,
    fun _ => .ok [], fun _ => "", fun _ => ""⟩

/-- A 2-page document with no vector tables at all, used to witness the
OCR gating theorem. -/
def docNoVector2 : World :=
  ⟨.error (), .error (), .ok [[], []], .error (), fun _ => .error (),
    fun _ => "", fun _ => ""⟩

/-! Supporting lemmas about the accumulator operations and the loops. -/

theorem padTo_length (out : List String) (n : Nat) :
    (padTo out n).length = max out.length n := by
  simp [padTo]
  omega

theorem appendAt_length (out : List String) (i : Nat) (t : String) :
    (appendAt out i t).length = out.length := by
  simp [appendAt]

theorem addTable_fst_length_le (n : Nat) (st : List String × Option Nat)
    (t : CamelotTable) (h1 : st.1.length ≤ n) (hp : t.page ≤ n) :
    (addTable st t).1.length ≤ n := by
  simp only [addTable, appendAt_length, padTo_length]
  omega

theorem pass1_fold_inv (n : Nat) :
    ∀ (ts : List CamelotTable) (st : List String × Option Nat),
      (∀ t ∈ ts, t.page ≤ n ∧ t.n = n) →
      st.1.length ≤ n → (st.2 = none ∨ st.2 = some n) →
      (ts.foldl addTable st).1.length ≤ n ∧
        ((ts.foldl addTable st).2 = none ∨ (ts.foldl addTable st).2 = some n) := by
  intro ts
  induction ts with
  | nil => intro st _ h1 h2; exact ⟨h1, h2⟩
  | cons t ts ih =>
    intro st hmem h1 h2
    simp only [List.foldl_cons]
    refine ih (addTable st t) (fun u hu => hmem u (List.mem_cons_of_mem _ hu)) ?_ ?_
    · exact addTable_fst_length_le n st t h1 (hmem t (List.mem_cons_self _ _)).1
    · rcases h2 with h | h
      · right
        simp [addTable, h, (hmem t (List.mem_cons_self _ _)).2]
      · right
        simp [addTable, h]

theorem pass1_bounds (n : Nat) (ts : List CamelotTable)
    (hts : ∀ t ∈ ts, t.page ≤ n ∧ t.n = n) :
    (pass1 ts).1.length ≤ n ∧ ((pass1 ts).2 = none ∨ (pass1 ts).2 = some n) :=
  pass1_fold_inv n ts ([], none) hts (by simp) (Or.inl rfl)

theorem foldl_appendAt_length (i : Nat) :
    ∀ (gs : List Grid) (out : List String),
      (gs.foldl (fun o g => appendAt o i (_df_to_text g)) out).length = out.length := by
  intro gs
  induction gs with
  | nil => intro out; rfl
  | cons g gs ih =>
    intro out
    simp only [List.foldl_cons]
    rw [ih, appendAt_length]

theorem plumberStep_length_le (n : Nat) (out : List String) (idx1 : Nat)
    (tbls : List Grid) (h1 : out.length ≤ n) (h2 : idx1 ≤ n) :
    (plumberStep out idx1 tbls).length ≤ n := by
  unfold plumberStep
  split
  · exact h1
  · rw [foldl_appendAt_length, padTo_length]
    omega

theorem plumberLoop_length_le (n : Nat) :
    ∀ (pages : List (List Grid)) (out : List String) (idx1 : Nat),
      out.length ≤ n → idx1 + pages.length ≤ n + 1 →
      (plumberLoop out pages idx1).length ≤ n := by
  intro pages
  induction pages with
  | nil => intro out idx1 h1 _; exact h1
  | cons p rest ih =>
    intro out idx1 h1 h2
    simp only [List.length_cons] at h2
    simp only [plumberLoop]
    refine ih (plumberStep out idx1 p) (idx1 + 1) ?_ (by omega)
    exact plumberStep_length_le n out idx1 p h1 (by omega)

theorem plumberStep_nilTables (out : List String) (idx1 : Nat) :
    plumberStep out idx1 [] = out := by
  simp [plumberStep]

theorem plumberLoop_empty_pages :
    ∀ (pages : List (List Grid)) (out : List String) (idx1 : Nat),
      (∀ p ∈ pages, p = []) → plumberLoop out pages idx1 = out := by
  intro pages
  induction pages with
  | nil => intro out idx1 _; rfl
  | cons p rest ih =>
    intro out idx1 h
    simp only [plumberLoop]
    rw [h p (List.mem_cons_self _ _), plumberStep_nilTables]
    exact ih out (idx1 + 1) (fun q hq => h q (List.mem_cons_of_mem _ hq))

theorem ocrLoop_ok (tess : Nat → Except Unit (List WordRec)) (empties : List Nat)
    (htess : ∀ i, ∃ d, tess i = Except.ok d) :
    ∀ (idxs : List Nat) (out : List String) (log : List Nat),
      ∃ out2 log2, ocrLoop tess empties idxs out log = Except.ok (out2, log2) ∧
        out2.length = out.length := by
  intro idxs
  induction idxs with
  | nil => intro out log; exact ⟨out, log, rfl, rfl⟩
  | cons i rest ih =>
    intro out log
    by_cases hmem : i ∈ empties
    · obtain ⟨d, hd⟩ := htess i
      simp only [ocrLoop, if_pos hmem, hd]
      by_cases hde : d = []
      · rw [if_pos hde]
        exact ih out (log ++ [i])
      · rw [if_neg hde]
        obtain ⟨o2, l2, he, hl⟩ := ih (out.set i (pageFromTsv d)) (log ++ [i])
        exact ⟨o2, l2, he, by rw [hl, List.length_set]⟩
    · simp only [ocrLoop, if_neg hmem]
      exact ih out log

theorem ocrLoop_log_mem (tess : Nat → Except Unit (List WordRec)) (empties : List Nat) :
    ∀ (idxs : List Nat) (out : List String) (log : List Nat)
      (out2 : List String) (log2 : List Nat),
      ocrLoop tess empties idxs out log = Except.ok (out2, log2) →
      ∀ i ∈ log2, i ∈ log ∨ i ∈ empties := by
  intro idxs
  induction idxs with
  | nil =>
    intro out log out2 log2 h i hi
    simp only [ocrLoop, Except.ok.injEq, Prod.mk.injEq] at h
    rw [← h.2] at hi
    exact Or.inl hi
  | cons j rest ih =>
    intro out log out2 log2 h i hi
    by_cases hmem : j ∈ empties
    · cases htj : tess j with
      | error e =>
        simp [ocrLoop, if_pos hmem, htj] at h
      | ok tsv =>
        simp only [ocrLoop, if_pos hmem, htj] at h
        have step : ∀ (o : List String),
            ocrLoop tess empties rest o (log ++ [j]) = Except.ok (out2, log2) →
            i ∈ log ∨ i ∈ empties := by
          intro o ho
          rcases ih o (log ++ [j]) out2 log2 ho i hi with hc | hc
          · rcases List.mem_append.mp hc with hc2 | hc2
            · exact Or.inl hc2
            · simp only [List.mem_singleton] at hc2
              rw [hc2]
              exact Or.inr hmem
          · exact Or.inr hc
        by_cases hde : tsv = []
        · rw [if_pos hde] at h
          exact step out h
        · rw [if_neg hde] at h
          exact step (out.set j (pageFromTsv tsv)) h
    · simp only [ocrLoop, if_neg hmem] at h
      exact ih out log out2 log2 h i hi

theorem emptyIdx_mem (out : List String) (i : Nat) (h : i ∈ emptyIdx out) :
    i < out.length ∧ out.getD i "" = "" := by
  simp only [emptyIdx, List.mem_filter, List.mem_range, decide_eq_true_eq] at h
  exact h

theorem length_pos_of_ne_empty (s : String) (h : s ≠ "") : 0 < s.length := by
  cases s with
  | mk data =>
    cases data with
    | nil => exact absurd rfl h
    | cons c cs => simp [String.length]

/-! Claim theorems. -/

/-- Claim C1: for every document that can be opened (pdfplumber opens it
reporting its n pages, Camelot tables are consistent with that page count,
rendering yields n images and the per-page OCR calls return), page_texts
returns a list with exactly one string entry per page, never an omission.
The hypotheses allow Camelot to fail or find nothing and every strategy to
produce nothing on every page. -/
theorem c1_one_entry_per_page (w : World) (n : Nat) (pages : List (List Grid))
    (hpl : w.plumber = Except.ok pages) (hn : pages.length = n)
    (hcam : ∀ t ∈ pass1Tables w, t.page ≤ n ∧ t.n = n)
    (hconv : w.convert = Except.ok n)
    (htess : ∀ i, ∃ d, w.tess i = Except.ok d) :
    ∃ l, page_texts w = Except.ok l ∧ l.length = n := by
  obtain ⟨hlen1, hnp1⟩ := pass1_bounds n (pass1Tables w) hcam
  have hvs : vectorState w = (plumberLoop (pass1 (pass1Tables w)).1 pages 1,
      some ((pass1 (pass1Tables w)).2.getD pages.length)) := by
    simp [vectorState, pass2, hpl]
  have hlen2 : (vectorState w).1.length ≤ n := by
    rw [hvs]
    exact plumberLoop_length_le n pages (pass1 (pass1Tables w)).1 1 hlen1 (by omega)
  have hnp2 : (vectorState w).2.getD 0 = n := by
    rw [hvs]
    rcases hnp1 with h | h
    · simp [h, hn]
    · simp [h]
  have hrun : page_textsRun w = pass3run w.convert w.tess (vectorState w).1 n := by
    show pass3run w.convert w.tess (vectorState w).1 ((vectorState w).2.getD 0) = _
    rw [hnp2]
  have hp3 : ∃ r, pass3run w.convert w.tess (vectorState w).1 n = Except.ok r ∧
      r.out.length = n := by
    by_cases hemp : emptyIdx (vectorState w).1 = []
    · refine ⟨⟨padTo (vectorState w).1 n, [], false⟩, ?_, ?_⟩
      · simp [pass3run, hemp]
      · show (padTo (vectorState w).1 n).length = n
        rw [padTo_length]
        omega
    · obtain ⟨o2, l2, he, hl⟩ := ocrLoop_ok w.tess (emptyIdx (vectorState w).1) htess
        (List.range n) (padTo (vectorState w).1 n) []
      refine ⟨⟨padTo o2 (if n = 0 then n else n), l2, true⟩, ?_, ?_⟩
      · simp [pass3run, hemp, hconv, he]
      · show (padTo o2 (if n = 0 then n else n)).length = n
        rw [ite_self, padTo_length, hl, padTo_length]
        omega
  obtain ⟨r, hr, hrl⟩ := hp3
  refine ⟨r.out, ?_, hrl⟩
  show (page_textsRun w).map RunResult.out = _
  rw [hrun, hr]
  rfl

/-- Claim C1 witness: a concrete 2-page document (Camelot table on page 2,
nothing else anywhere) on which the theorem instantiates. -/
theorem c1_one_entry_per_page_witness :
    ∃ l, page_texts docRenderOk = Except.ok l ∧ l.length = 2 :=
  c1_one_entry_per_page docRenderOk 2 [[], []] rfl rfl (by decide) rfl
    (fun _ => ⟨[], rfl⟩)

/-- Claim C2 counterexample: a 1-page document on which every stage produces
nothing but whose page has the non-empty embedded text layer Hello world;
page_texts returns the empty string for the page, not the text layer, so no
full-text fallback stage is applied. -/
theorem c2_counterexample :
    page_texts docTextOnly = Except.ok [""] ∧
      docTextOnly.textLayer 0 = "Hello world" ∧ ("" : String) ≠ "Hello world" :=
  ⟨rfl, rfl, by decide⟩

/-- Claim C2 (amended): page_texts never reads the embedded text layer; its
result is unchanged under any replacement of the text layer, and a page on
which both stages produce nothing yields the empty string. -/
theorem c2_amended_text_layer_never_read (w : World) (f : Nat → String) :
    page_texts (setTextLayer w f) = page_texts w := rfl

/-- Claim C3 (code bug): on the Scenario B document (1 scanned page, no
vector tables, OCR would read two groups Jones County and Smith
Reservation) the code returns one empty string and never invokes OCR,
because the vector passes left the accumulator empty; the second conjunct
shows the row reconstruction would have produced exactly the two expected
rows had the OCR stage run. -/
theorem c3_scenarioB_code_bug :
    page_textsRun docScenarioB = Except.ok ⟨[""], [], false⟩ ∧
      ocrRows [⟨1, 1, 1, "Jones"⟩, ⟨1, 1, 1, "County"⟩, ⟨2, 1, 1, "Smith"⟩,
        ⟨2, 1, 1, "Reservation"⟩] = ["Jones County", "Smith Reservation"] ∧
      ([""] : List String) ≠ ["Jones County\nSmith Reservation"] :=
  ⟨rfl, rfl, by decide⟩

/-- Claim C4 counterexample: on the 1-page ruled 2 by 2 table document where
pdfplumber also detects the table Camelot already found, the pdfplumber text
is appended on top of the Camelot text, so the table appears twice and the
output is not the Scenario A string. -/
theorem c4_counterexample :
    page_texts docRuledBoth = Except.ok ["A1 B1\nA2 B2\nA1 B1\nA2 B2"] ∧
      (["A1 B1\nA2 B2\nA1 B1\nA2 B2"] : List String) ≠ ["A1 B1\nA2 B2"] :=
  ⟨rfl, by decide⟩

/-- Claim C4 (amended): pdfplumber tables are appended after Camelot tables
on the same page rather than suppressed; the Scenario A output is exactly
the Camelot text precisely when pdfplumber finds no table on that page, as
on this concrete document. -/
theorem c4_amended_scenarioA :
    page_texts docRuledCamelotOnly = Except.ok ["A1 B1\nA2 B2"] := rfl

/-- Claim C5 counterexample: on an input no library can open, page_texts
returns the empty list normally instead of propagating an error. -/
theorem c5_counterexample : page_texts docUnopenable = Except.ok [] := rfl

/-- Claim C5 (amended): when both vector libraries fail to open the input,
page_texts swallows the failures and returns the empty list; the raster
stage is never reached because the accumulator is empty. -/
theorem c5_amended_open_failure_swallowed (w : World)
    (hlat : w.camelotLattice = Except.error ())
    (hpl : w.plumber = Except.error ()) :
    page_texts w = Except.ok [] := by
  have h1 : pass1Tables w = [] := by simp [pass1Tables, hlat]
  have h2 : vectorState w = ([], none) := by
    simp [vectorState, h1, pass1, pass2, hpl]
  have h3 : page_textsRun w = Except.ok ⟨[], [], false⟩ := by
    show pass3run w.convert w.tess (vectorState w).1 ((vectorState w).2.getD 0) = _
    rw [h2]
    simp [pass3run, emptyIdx, padTo]
  show (page_textsRun w).map RunResult.out = _
  rw [h3]
  rfl

/-- Claim C5 witness: a second unopenable input on which the amended
theorem instantiates. -/
theorem c5_amended_open_failure_swallowed_witness :
    page_texts docUnopenable2 = Except.ok [] :=
  c5_amended_open_failure_swallowed docUnopenable2 rfl rfl

/-- Claim C6 counterexample: an openable 2-page document (pdfplumber opens
it; Camelot finds a table on page 2) whose rasterization call fails when
page 1 is to be OCRed; the failure escapes page_texts as an exception. -/
theorem c6_counterexample : page_texts docRenderFails = Except.error () := rfl

/-- Claim C6 (amended): failures of the two vector libraries never escape
page_texts; whenever rasterization and the per-page OCR calls succeed, the
function returns normally no matter how Camelot and pdfplumber behave. A
rasterization or OCR failure in the raster pass, however, does escape. -/
theorem c6_amended_vector_failures_contained (w : World) (m : Nat)
    (hconv : w.convert = Except.ok m)
    (htess : ∀ i, ∃ d, w.tess i = Except.ok d) :
    ∃ l, page_texts w = Except.ok l := by
  have hp3 : ∃ r, pass3run w.convert w.tess (vectorState w).1
      ((vectorState w).2.getD 0) = Except.ok r := by
    by_cases hemp : emptyIdx (vectorState w).1 = []
    · exact ⟨⟨padTo (vectorState w).1 ((vectorState w).2.getD 0), [], false⟩,
        by simp [pass3run, hemp]⟩
    · obtain ⟨o2, l2, he, -⟩ := ocrLoop_ok w.tess (emptyIdx (vectorState w).1) htess
        (List.range m) (padTo (vectorState w).1 m) []
      exact ⟨⟨padTo o2 (if (vectorState w).2.getD 0 = 0 then m
          else (vectorState w).2.getD 0), l2, true⟩,
        by simp [pass3run, hemp, hconv, he]⟩
  obtain ⟨r, hr⟩ := hp3
  refine ⟨r.out, ?_⟩
  show (page_textsRun w).map RunResult.out = _
  rw [show page_textsRun w = Except.ok r from hr]
  rfl

/-- Claim C6 witness: a concrete openable document with a successful raster
pass on which the amended theorem instantiates. -/
theorem c6_amended_vector_failures_contained_witness :
    ∃ l, page_texts docRenderOk = Except.ok l :=
  c6_amended_vector_failures_contained docRenderOk 2 rfl (fun _ => ⟨[], rfl⟩)

/-- Claim C7 counterexample: a page whose result is produced by the OCR
stage carries the single row X of length 1, below every minimum threshold
of at least 2 characters; no minimum-length filter exists in the code. -/
theorem c7_counterexample :
    page_textsRun docShortRow = Except.ok ⟨["X", "T2"], [0], true⟩ ∧
      ("X" : String).length = 1 :=
  ⟨rfl, rfl⟩

/-- Claim C7 (amended): the only row filter of the OCR stage is
non-emptiness: every reconstructed row has length at least 1 (rows that
strip to nothing are dropped), with no configurable minimum character
threshold. -/
theorem c7_amended_rows_min_length (d : List WordRec) (r : String)
    (h : r ∈ ocrRows d) : 0 < r.length := by
  simp only [ocrRows, List.mem_filterMap] at h
  obtain ⟨k, -, hk⟩ := h
  by_cases he : String.intercalate " " (groupTokens d k) = ""
  · rw [if_pos he] at hk
    exact Option.noConfusion hk
  · rw [if_neg he] at hk
    simp only [Option.some.injEq] at hk
    rw [← hk]
    exact length_pos_of_ne_empty _ he

/-- Claim C7 witness: the amended theorem instantiated on a one-word TSV. -/
theorem c7_amended_rows_min_length_witness :
    ("X" ∈ ocrRows [⟨1, 1, 1, "X"⟩]) ∧ 0 < ("X" : String).length :=
  ⟨by decide, c7_amended_rows_min_length [⟨1, 1, 1, "X"⟩] "X" (by decide)⟩

/-- Claim C8 counterexample: a page whose OCR grouping and filtering yield
zero rows ends as the empty string even though a whole-image OCR pass over
the page would read HELLO; no last-resort whole-image pass exists. -/
theorem c8_counterexample :
    page_textsRun docNoisePage = Except.ok ⟨["", "T2"], [0], true⟩ ∧
      docNoisePage.wholeImageOcr 0 = "HELLO" ∧ ("HELLO" : String) ≠ "" :=
  ⟨rfl, rfl, by decide⟩

/-- Claim C8 (amended): page_texts never performs a whole-image OCR pass;
its result is unchanged under any replacement of the whole-image OCR text,
and a page whose grouping yields zero rows is set to the empty string. -/
theorem c8_amended_whole_image_never_read (w : World) (f : Nat → String) :
    page_texts (setWholeOcr w f) = page_texts w := rfl

/-- Claim C9 counterexample: lattice finds a table on page 1 of 2 and the
stream flavor would find the table S2 on page 2, yet the page 2 output is
the empty string: the stream strategy is not attempted per page once
lattice found any table anywhere in the document. -/
theorem c9_counterexample :
    page_texts docLatticePage1 = Except.ok ["L1", ""] ∧
      docLatticePage1.camelotStream = Except.ok [⟨[["S2"]], 2, 2⟩] ∧
      _df_to_text [["S2"]] = "S2" ∧ ("" : String) ≠ "S2" :=
  ⟨rfl, rfl, rfl, by decide⟩

/-- Claim C9 (amended): the stream fallback is document-level, not
per-page: whenever the lattice flavor returns a non-empty table list, the
output of page_texts is independent of the stream flavor outcome, so no
page is ever retried with the stream strategy. -/
theorem c9_amended_stream_not_consulted (w : World)
    (s : Except Unit (List CamelotTable)) (ts : List CamelotTable)
    (hlat : w.camelotLattice = Except.ok ts) (hne : ts ≠ []) :
    page_texts (setStream w s) = page_texts w := by
  have h1 : pass1Tables (setStream w s) = pass1Tables w := by
    simp [pass1Tables, setStream, hlat, hne]
  have h2 : page_textsRun (setStream w s) = page_textsRun w := by
    unfold page_textsRun vectorState
    simp only [h1]
    rfl
  show (page_textsRun (setStream w s)).map RunResult.out = _
  rw [h2]
  rfl

/-- Claim C9 witness: the amended theorem instantiated on the concrete
document of the counterexample, replacing the stream outcome by a failure. -/
theorem c9_amended_stream_not_consulted_witness :
    page_texts (setStream docLatticePage1 (Except.error ())) =
      page_texts docLatticePage1 :=
  c9_amended_stream_not_consulted docLatticePage1 (Except.error ())
    [⟨[["L1"]], 1, 2⟩] rfl (by decide)

/-- Claim C10: the raster stage is attempted exactly when the accumulator
left by the two vector passes has at least one empty entry; every OCRed
page index lies below the accumulator length and its entry was empty (so
pages past the last vector-table-bearing page are never OCRed); and when no
vector table is found anywhere while pdfplumber opens the file, OCR is
never invoked and every returned entry is the empty string. -/
theorem c10_ocr_gating :
    (∀ (w : World) (r : RunResult), page_textsRun w = Except.ok r →
      ((r.rasterAttempted = true) ↔ emptyIdx (vectorOut w) ≠ []) ∧
      (∀ i ∈ r.ocrPages, i < (vectorOut w).length ∧ (vectorOut w).getD i "" = "")) ∧
    (∀ (w : World) (pages : List (List Grid)), pass1Tables w = [] →
      w.plumber = Except.ok pages → (∀ p ∈ pages, p = []) →
      page_textsRun w = Except.ok ⟨List.replicate pages.length "", [], false⟩) := by
  constructor
  · intro w r hr
    have hr2 : pass3run w.convert w.tess (vectorOut w)
        ((vectorState w).2.getD 0) = Except.ok r := hr
    by_cases hemp : emptyIdx (vectorOut w) = []
    · unfold pass3run at hr2
      rw [if_pos hemp] at hr2
      simp only [Except.ok.injEq] at hr2
      rw [← hr2]
      refine ⟨by simp [hemp], ?_⟩
      intro i hi
      simp at hi
    · unfold pass3run at hr2
      rw [if_neg hemp] at hr2
      cases hconv : w.convert with
      | error e =>
        rw [hconv] at hr2
        exact Except.noConfusion hr2
      | ok m =>
        simp only [hconv] at hr2
        cases hloop : ocrLoop w.tess (emptyIdx (vectorOut w)) (List.range m)
            (padTo (vectorOut w) m) [] with
        | error e =>
          simp only [hloop] at hr2
          exact Except.noConfusion hr2
        | ok st =>
          simp only [hloop, Except.ok.injEq] at hr2
          rw [← hr2]
          refine ⟨by simp [hemp], ?_⟩
          intro i hi
          have hmem := ocrLoop_log_mem w.tess (emptyIdx (vectorOut w)) (List.range m)
            (padTo (vectorOut w) m) [] st.1 st.2 (by rw [hloop]) i hi
          rcases hmem with hc | hc
          · simp at hc
          · exact emptyIdx_mem (vectorOut w) i hc
  · intro w pages hvec hpl hallnil
    have h1 : vectorState w = ([], some pages.length) := by
      simp [vectorState, hvec, pass1, pass2, hpl,
        plumberLoop_empty_pages pages [] 1 hallnil]
    show pass3run w.convert w.tess (vectorState w).1 ((vectorState w).2.getD 0) = _
    rw [h1]
    simp [pass3run, emptyIdx, padTo]

/-- Claim C10 witness: the gating theorem instantiated on a concrete 2-page
document with no vector tables: OCR is skipped and both entries are empty. -/
theorem c10_ocr_gating_witness :
    page_textsRun docNoVector2 = Except.ok ⟨List.replicate 2 "", [], false⟩ :=
  c10_ocr_gating.2 docNoVector2 [[], []] rfl rfl (by decide)

end ExtractPages
